import Mathlib

/-!
Verification development for the delivery route optimization and
truck-loading workflow of the sms-standalone repository.

The JavaScript source is embedded shallowly:

* `routes/delivery.js` — `determineDeliveryMethod` (the classifier), the
  `/orders` categorization loop, and the `/optimize-route` handler with its
  per-order geocoding loop;
* `services/openroute.js` — `optimizeDeliveryRoute` (job preparation, the
  join of solver steps back onto orders, and the packing order) and the
  shape of `geocodeAddress` results;
* `services/shopify.js` — the upstream derivation of `deliveryMethod`
  from the first shipping line;
* `public/delivery.js` — `findOrderByNumber` (scanner lookup) and
  `toggleOrderLoaded` (the loading tracker).

JavaScript truthiness is modelled explicitly: a possibly-absent string is
`Option String` and is truthy iff present and nonempty; a possibly-absent
number is `Option Int` and is truthy iff present and nonzero.  External
network calls (the geocoder, the VRP solver, the tracking endpoint) are
passed in as explicit arguments: an `Option` result models a call that may
fail, mirroring the try/catch structure of the source.
-/

/-- Boolean test that a list starts with the given pattern. -/
def listStartsWith : List Char → List Char → Bool
  | [], _ => true
  | _ :: _, [] => false
  | p :: ps, c :: cs => p == c && listStartsWith ps cs

/-- Boolean test that the pattern occurs contiguously inside the list. -/
def listContainsSeq : List Char → List Char → Bool
  | pat, [] => pat.isEmpty
  | pat, c :: rest => listStartsWith pat (c :: rest) || listContainsSeq pat rest

/-- JavaScript `s.includes(pat)` on strings. -/
def strIncludes (s pat : String) : Bool := listContainsSeq pat.data s.data

/-- JavaScript `s.toLowerCase()` restricted to ASCII letters. -/
def lowerStr (s : String) : String := ⟨s.data.map Char.toLower⟩

/-- Truthiness of a possibly-absent JavaScript string: absent and the
empty string are falsy. -/
def jsTruthyStr : Option String → Bool
  | none => false
  | some s => s ≠ ""

/-- Truthiness of a possibly-absent JavaScript number: absent and zero are
falsy. -/
def jsTruthyNum : Option Int → Bool
  | none => false
  | some n => n ≠ 0

/-- JavaScript `array.join(",")`. -/
def joinComma : List String → String
  | [] => ""
  | [t] => t
  | t :: rest => t ++ "," ++ joinComma rest

/-- Decimal digit test. -/
def isDigitCh (c : Char) : Bool := 48 ≤ c.toNat && c.toNat ≤ 57

/-- Value of a list of decimal digits. -/
def digitsVal (l : List Char) : Nat := l.foldl (fun acc c => 10 * acc + (c.toNat - 48)) 0

/-- JavaScript `parseInt(s)` for decimal input: skip leading spaces, accept
an optional sign, then read a maximal digit prefix; `none` models `NaN`. -/
def parseIntJs (s : String) : Option Int :=
  let l := s.data.dropWhile (fun c => c == ' ')
  match l with
  | '-' :: rest =>
    let ds := rest.takeWhile isDigitCh
    if ds.isEmpty then none else some (-(digitsVal ds : Int))
  | '+' :: rest =>
    let ds := rest.takeWhile isDigitCh
    if ds.isEmpty then none else some (digitsVal ds)
  | _ =>
    let ds := l.takeWhile isDigitCh
    if ds.isEmpty then none else some (digitsVal ds)

/-- A Shopify street address as the delivery code sees it.  String fields
are optional (JavaScript `undefined` is `none`); the coordinate fields are
written by the geocoding loop and are absent until then. -/
structure Addr where
  address1 : Option String
  city : Option String
  province : Option String
  longitude : Option Int
  latitude : Option Int
deriving DecidableEq

/-- Customer data attached to an order. -/
structure Customer where
  name : String
  phone : Option String
  address : Option Addr
deriving DecidableEq

/-- One entry of `order.shipping_lines`. -/
structure ShipLine where
  title : String
  code : Option String
deriving DecidableEq

/-- An order as returned by the Shopify service layer, before the delivery
route classifies it. -/
structure RawOrder where
  id : String
  orderNumber : String
  name : Option String
  deliveryMethod : Option String
  tags : List String
  shipping_lines : List ShipLine
  shipping_address : Option Addr
  billing_address : Option Addr
  customer : Customer
  fulfillmentStatus : String
deriving DecidableEq

/-- `kws.any (s.includes ·)` — keyword scan used by the classifier. -/
def containsAnyKw (s : String) (kws : List String) : Bool :=
  kws.any (fun k => strIncludes s k)

/-- Upstream derivation of `deliveryMethod` from the first shipping line
(services/shopify.js lines 127-171).  With no shipping lines the result is
`"Unknown"`; an unrecognized nonempty title is passed through verbatim. -/
def shopifyDeliveryMethod (lines : List ShipLine) : String :=
  match lines with
  | [] => "Unknown"
  | sl :: _ =>
    let title := lowerStr sl.title
    let code := lowerStr ((sl.code).getD "")
    if strIncludes title "pickup" || strIncludes title "collection" ||
       strIncludes title "collect" || strIncludes title "market" ||
       strIncludes code "pickup" || strIncludes code "collection" then "Pickup"
    else if strIncludes title "delivery" || strIncludes title "shipping" ||
       strIncludes title "post" || strIncludes title "courier" ||
       strIncludes title "express" || strIncludes code "delivery" ||
       strIncludes code "shipping" then "Home Delivery"
    else if sl.title == "" then "Unknown" else sl.title

/-- Priority 1 and its keyword fallback (routes/delivery.js lines 20-36):
a truthy `deliveryMethod` equal to one of the two labels is returned
unchanged; otherwise its lowercase form is scanned for keywords; `none`
means the rule is inconclusive and the cascade continues. -/
def methodRule (dm : Option String) : Option String :=
  if jsTruthyStr dm then
    let s := dm.getD ""
    if s == "Pickup" || s == "Home Delivery" then some s
    else
      let m := lowerStr s
      if containsAnyKw m ["pickup", "collection", "market"] then some "Pickup"
      else if containsAnyKw m ["delivery", "shipping", "post", "courier"] then some "Home Delivery"
      else none
  else none

/-- Priority 2, the tag scan (routes/delivery.js lines 39-49).  The joined
lowercased tag string is scanned for `pickup`/`collection`/`market`, then
for `delivery`/`shipping` only. -/
def tagsRule (tags : List String) : Option String :=
  if tags.length > 0 then
    let t := lowerStr (joinComma tags)
    if strIncludes t "pickup" || strIncludes t "collection" || strIncludes t "market" then
      some "Pickup"
    else if strIncludes t "delivery" || strIncludes t "shipping" then
      some "Home Delivery"
    else none
  else none

/-- Priority 3, the shipping line analysis (routes/delivery.js lines 52-72). -/
def shippingLineRule (lines : List ShipLine) : Option String :=
  match lines with
  | [] => none
  | sl :: _ =>
    let title := lowerStr sl.title
    let code := lowerStr ((sl.code).getD "")
    if (["pickup", "collection", "collect", "market", "store pickup", "local pickup"].any
        (fun k => strIncludes title k || strIncludes code k)) then some "Pickup"
    else if (["delivery", "shipping", "post", "courier", "express", "standard", "home delivery"].any
        (fun k => strIncludes title k || strIncludes code k)) then some "Home Delivery"
    else none

/-- A possibly-absent address is valid when present with a truthy street
line or city (routes/delivery.js lines 75-79). -/
def hasValidAddr : Option Addr → Bool
  | none => false
  | some a => jsTruthyStr a.address1 || jsTruthyStr a.city

/-- The `shippingSame` comparison of routes/delivery.js lines 83-84;
JavaScript strict equality of possibly-absent fields is `Option` equality. -/
def sameAddrOpt : Option Addr → Option Addr → Bool
  | some s, some b => s.address1 == b.address1 && s.city == b.city
  | _, _ => false

/-- Priority 4 and the final fallback (routes/delivery.js lines 74-106). -/
def addressRule (sa ba : Option Addr) : String :=
  let hs := hasValidAddr sa
  let hb := hasValidAddr ba
  if hs && hb && !(sameAddrOpt sa ba) then "Home Delivery"
  else if hs && !hb then "Home Delivery"
  else if !hs && hb then "Pickup"
  else "Pickup"

/-- The delivery method classifier, `determineDeliveryMethod` of
routes/delivery.js lines 9-107: the priority cascade with early return. -/
def determineDeliveryMethod (o : RawOrder) : String :=
  match methodRule o.deliveryMethod with
  | some r => r
  | none =>
    match tagsRule o.tags with
    | some r => r
    | none =>
      match shippingLineRule o.shipping_lines with
      | some r => r
      | none => addressRule o.shipping_address o.billing_address

/-- The classifier applied to an order as the `/orders` route actually
receives it: the Shopify service has already set `deliveryMethod` from the
first shipping line. -/
def pipelineClassify (o : RawOrder) : String :=
  determineDeliveryMethod { o with deliveryMethod := some (shopifyDeliveryMethod o.shipping_lines) }

/-- A classified order as assembled by the `/orders` categorization loop
(routes/delivery.js lines 156-187). -/
structure Order where
  id : String
  orderNumber : String
  name : Option String
  deliveryType : String
  deliveryMethod : String
  «section» : String
  customer : Customer
  hasAddress : Bool
deriving DecidableEq

/-- JavaScript `a || b` on two possibly-absent objects. -/
def jsOrOpt (a b : Option Addr) : Option Addr :=
  match a with
  | some x => some x
  | none => b

/-- The categorization step of the `/orders` route: pickups keep their
customer record and get section `fridge`; deliveries get section `freezer`
and their customer address replaced by shipping-or-billing. -/
def categorizeOrder (o : RawOrder) : Order :=
  if determineDeliveryMethod o == "Pickup" then
    { id := o.id, orderNumber := o.orderNumber, name := o.name,
      deliveryType := "pickup", deliveryMethod := "Pickup", «section» := "fridge",
      customer := o.customer, hasAddress := false }
  else
    let address := jsOrOpt o.shipping_address o.billing_address
    { id := o.id, orderNumber := o.orderNumber, name := o.name,
      deliveryType := "delivery", deliveryMethod := "Home Delivery", «section» := "freezer",
      customer := { o.customer with address := address },
      hasAddress := address.isSome }

def farmRdAddr : Addr :=
  { address1 := some "12 Farm Rd", city := some "Newcastle",
    province := none, longitude := none, latitude := none }

/-- One job submitted to the VRP solver (services/openroute.js lines 27-36). -/
structure Job where
  id : Int
  service : Nat
  amount : List Nat
  location : Int × Int
  description : String
deriving DecidableEq

/-- The job-eligibility filter of services/openroute.js lines 21-26: the
order is a delivery and its customer address carries truthy coordinates. -/
def jobPass (o : Order) : Bool :=
  (o.deliveryType == "delivery" || o.deliveryMethod == "Home Delivery") &&
  (match o.customer.address with
   | some a => jsTruthyNum a.longitude && jsTruthyNum a.latitude
   | none => false)

/-- The job id of services/openroute.js line 28: `parseInt(order.id) ||
index + 1`, so `NaN` and `0` fall back to the one-based index. -/
def jobIdOf (o : Order) (idx : Nat) : Int :=
  match parseIntJs o.id with
  | some n => if n == 0 then ((idx : Int) + 1) else n
  | none => ((idx : Int) + 1)

/-- The coordinate pair read off the customer address (zero default is
unreachable for orders passing `jobPass`). -/
def jobLocationOf (o : Order) : Int × Int :=
  match o.customer.address with
  | some a => (a.longitude.getD 0, a.latitude.getD 0)
  | none => (0, 0)

/-- Job preparation of services/openroute.js lines 20-36: filter eligible
orders, then map each to a job with the index-fallback id. -/
def mkJobs (orders : List Order) : List Job :=
  (orders.filter jobPass).enum.map (fun p =>
    { id := jobIdOf p.2 p.1, service := 300, amount := [1],
      location := jobLocationOf p.2,
      description := "Order " ++ p.2.orderNumber ++ " - " ++ p.2.customer.name })

/-- One step of the solver response route. -/
structure RouteStep where
  type : String
  id : Int
  arrival : Nat
deriving DecidableEq

/-- The first route of a well-formed solver response. -/
structure SolverRoute where
  steps : List RouteStep
  distance : Nat
  duration : Nat
deriving DecidableEq

/-- One stop of the optimized route (services/openroute.js lines 91-100).
The JavaScript spreads `originalOrder` into the stop; `orderData = none`
models the spread of `undefined`, a stop that lost its order data. -/
structure Stop where
  orderData : Option Order
  sequence : Nat
  location : Int × Int
  arrivalTime : Nat
deriving DecidableEq

/-- The result shape of `optimizeDeliveryRoute`. -/
structure RouteResult where
  success : Bool
  optimizedRoute : List Stop
  packingOrder : List Stop
  totalDistance : Nat
  totalTime : Nat
  message : Option String
  error : Option String
deriving DecidableEq

/-- The order side of the join at services/openroute.js line 93:
`orders.find(o => parseInt(o.id) === step.id)`; `NaN` compares unequal. -/
def findOriginalOrder (orders : List Order) (sid : Int) : Option Order :=
  orders.find? (fun o =>
    match parseIntJs o.id with
    | some n => n == sid
    | none => false)

/-- Build one stop from a job-type step (services/openroute.js lines
91-100).  `none` models the `TypeError` thrown when no submitted job has
the step id (`job.location` on `undefined`); a missing original order is
spread silently. -/
def buildStop (orders : List Order) (jobs : List Job) (s : RouteStep) : Option Stop :=
  (jobs.find? (fun j => j.id == s.id)).map (fun job =>
    { orderData := findOriginalOrder orders s.id,
      sequence := s.arrival, location := job.location, arrivalTime := s.arrival })

/-- Build all stops in solver order; the first missing job aborts, as the
thrown `TypeError` does. -/
def buildStops (orders : List Order) (jobs : List Job) : List RouteStep → Option (List Stop)
  | [] => some []
  | s :: rest =>
    match buildStop orders jobs s, buildStops orders jobs rest with
    | some st, some sts => some (st :: sts)
    | _, _ => none

/-- The failure result of the catch block (services/openroute.js lines
124-132). -/
def failureResult (msg : String) : RouteResult :=
  { success := false, optimizedRoute := [], packingOrder := [],
    totalDistance := 0, totalTime := 0, message := none, error := some msg }

/-- An empty successful result with an explanatory message. -/
def emptyRouteResult (msg : String) : RouteResult :=
  { success := true, optimizedRoute := [], packingOrder := [],
    totalDistance := 0, totalTime := 0, message := some msg, error := none }

/-- `optimizeDeliveryRoute` of services/openroute.js lines 13-133.  The
missing-credentials check, the empty-job early return, the solver call
(`resp = none` models a network error or an invalid response), the join of
job-type steps back onto orders, and the packing order as the reverse of
the optimized sequence.  Every abrupt JavaScript exit lands in the catch
block, hence in `failureResult`. -/
def optimizeDeliveryRoute (hasApiKey : Bool) (orders : List Order)
    (resp : Option SolverRoute) : RouteResult :=
  if !hasApiKey then failureResult "ORS_API_KEY environment variable not set"
  else
    let jobs := mkJobs orders
    if jobs.length == 0 then emptyRouteResult "No delivery orders found"
    else
      match resp with
      | none => failureResult "Invalid response from ORS API"
      | some route =>
        let optimizedJobs := route.steps.filter (fun s => s.type == "job")
        match buildStops orders jobs optimizedJobs with
        | none => failureResult "TypeError: cannot read location of undefined"
        | some stops =>
          { success := true, optimizedRoute := stops, packingOrder := stops.reverse,
            totalDistance := route.distance, totalTime := route.duration,
            message := none, error := none }

/-- A geocoding result (services/openroute.js lines 164-173). -/
structure GeoResult where
  longitude : Int
  latitude : Int
  confidence : Nat
deriving DecidableEq

/-- The request filter of the optimize-route handler (routes/delivery.js
lines 235-240): delivery orders whose address has a truthy street line or
city. -/
def rawDeliveryFilter (o : Order) : Bool :=
  o.deliveryType == "delivery" &&
  (match o.customer.address with
   | some a => jsTruthyStr a.address1 || jsTruthyStr a.city
   | none => false)

/-- Rewrite an order with the coordinates returned by the geocoder
(routes/delivery.js lines 267-277). -/
def withCoords (o : Order) (a : Addr) (c : GeoResult) : Order :=
  { o with customer := { o.customer with
      address := some { a with longitude := some c.longitude, latitude := some c.latitude } } }

/-- The sequential geocoding loop of routes/delivery.js lines 262-282.
The geocoder is an explicit argument; `none` models every per-address
failure path of `geocodeAddress` (network error, zero results, thrown
exception).  An order is kept only when the call returns coordinates that
are both truthy, exactly as `coordinates && coordinates.longitude &&
coordinates.latitude` checks; a missing address makes `geocodeAddress`
throw internally and return `null`, so it is skipped too. -/
def geocodeBatch (g : Addr → Option GeoResult) : List Order → List Order
  | [] => []
  | o :: rest =>
    match o.customer.address with
    | none => geocodeBatch g rest
    | some a =>
      match g a with
      | some c =>
        if c.longitude ≠ 0 && c.latitude ≠ 0 then withCoords o a c :: geocodeBatch g rest
        else geocodeBatch g rest
      | none => geocodeBatch g rest

/-- The `/optimize-route` handler (routes/delivery.js lines 219-318):
early empty responses, the delivery-with-address filter, the geocoding
loop, then the call into `optimizeDeliveryRoute`. -/
def optimizeRouteHandler (orders : List Order) (g : Addr → Option GeoResult)
    (hasApiKey : Bool) (resp : Option SolverRoute) : RouteResult :=
  if orders.length == 0 then emptyRouteResult "No orders to optimize"
  else
    let raw := orders.filter rawDeliveryFilter
    if raw.length == 0 then emptyRouteResult "No delivery orders with valid addresses found"
    else
      let coords := geocodeBatch g raw
      if coords.length == 0 then
        emptyRouteResult "No delivery addresses could be geocoded. Check addresses are valid."
      else optimizeDeliveryRoute hasApiKey coords resp

/-- The exact-match predicate of `findOrderByNumber` (public/delivery.js
lines 145-149): order number, stringified id, or display name. -/
def exactMatch (code : String) (o : Order) : Bool :=
  o.orderNumber == code || o.id == code ||
  (match o.name with
   | some n => n == code
   | none => false)

/-- The substring fallback predicate (public/delivery.js lines 153-157);
the display name is consulted only when truthy. -/
def substrMatch (code : String) (o : Order) : Bool :=
  strIncludes o.orderNumber code || strIncludes o.id code ||
  (match o.name with
   | some n => if n == "" then false else strIncludes n code
   | none => false)

/-- `findOrderByNumber` of public/delivery.js lines 143-161: first exact
match, else first substring-containment match, both via `Array.find`. -/
def findOrderByNumber (allOrders : List Order) (orderNumber : String) : Option Order :=
  match allOrders.find? (exactMatch orderNumber) with
  | some o => some o
  | none => allOrders.find? (substrMatch orderNumber)

/-- One entry of the front-end `loadedOrders` table (public/delivery.js
lines 488-491): presence means loaded. -/
structure LoadEntry where
  timestamp : Nat
  «section» : String
deriving DecidableEq

/-- Lookup of `loadedOrders[orderId]` in the association-list model. -/
def lookupLoaded (m : List (String × LoadEntry)) (k : String) : Option LoadEntry :=
  (m.find? (fun p => p.1 == k)).map (fun p => p.2)

/-- The front-end session state touched by `toggleOrderLoaded`: the order
list fetched from `/orders` and the loaded-state table. -/
structure TrackerState where
  allOrders : List Order
  loadedOrders : List (String × LoadEntry)
deriving DecidableEq

/-- The JSON body answered by the track-loading endpoint, as the front end
sees it. -/
structure TrackResponse where
  success : Bool
  error : Option String
deriving DecidableEq

/-- `toggleOrderLoaded` of public/delivery.js lines 458-508.  `resp` is
the outcome of the `track-loading` fetch: `none` models a failed HTTP call
or unparsable body (the catch path); a response with `success = false`
throws and also lands in the catch path.  Only a confirmed response
mutates the table: delete the entry when the order was loaded, otherwise
insert a fresh entry carrying `now` and the order section. -/
def toggleOrderLoaded (st : TrackerState) (orderId : String) (now : Nat)
    (resp : Option TrackResponse) : TrackerState :=
  match st.allOrders.find? (fun o => o.id == orderId) with
  | none => st
  | some order =>
    match resp with
    | none => st
    | some r =>
      if r.success then
        if (lookupLoaded st.loadedOrders orderId).isSome then
          { st with loadedOrders := st.loadedOrders.filter (fun p => p.1 ≠ orderId) }
        else
          { st with loadedOrders :=
              (orderId, { timestamp := now, «section» := order.«section» }) :: st.loadedOrders }
      else st

/-- One load/unload attempt: the scanned or clicked order id, the wall
clock at the mutation, and the outcome of the backing request. -/
def applyActions (st : TrackerState) (acts : List (String × Nat × Option TrackResponse)) :
    TrackerState :=
  acts.foldl (fun s a => toggleOrderLoaded s a.1 a.2.1 a.2.2) st

/-- Every conclusive answer of the deliveryMethod rule is one of the two
labels. -/
theorem methodRule_out {dm : Option String} {r : String} (h : methodRule dm = some r) :
    r = "Pickup" ∨ r = "Home Delivery" := by
  simp only [methodRule] at h
  split_ifs at h <;> simp_all

/-- Every conclusive answer of the tag rule is one of the two labels. -/
theorem tagsRule_out {tags : List String} {r : String} (h : tagsRule tags = some r) :
    r = "Pickup" ∨ r = "Home Delivery" := by
  simp only [tagsRule] at h
  split_ifs at h <;> simp_all

/-- Every conclusive answer of the shipping line rule is one of the two
labels. -/
theorem shippingLineRule_out {lines : List ShipLine} {r : String}
    (h : shippingLineRule lines = some r) : r = "Pickup" ∨ r = "Home Delivery" := by
  cases lines with
  | nil => simp [shippingLineRule] at h
  | cons sl rest =>
    simp only [shippingLineRule] at h
    split_ifs at h <;> simp_all

/-- The address heuristic always answers one of the two labels. -/
theorem addressRule_out (sa ba : Option Addr) :
    addressRule sa ba = "Pickup" ∨ addressRule sa ba = "Home Delivery" := by
  simp only [addressRule]
  split_ifs <;> simp

/-- C5: the classifier is deterministic and total.  For every order it
returns exactly one of the strings "Pickup" and "Home Delivery" (the
embedding is a total function, so it can neither return null nor throw),
and along the order pipeline — where the Shopify service derives the
deliveryMethod field from the first shipping line — the result is a pure
function of the shipping lines, tags, and the two addresses. -/
theorem classifier_total_deterministic :
    (∀ o : RawOrder,
      determineDeliveryMethod o = "Pickup" ∨ determineDeliveryMethod o = "Home Delivery")
    ∧ (∀ o1 o2 : RawOrder, o1.shipping_lines = o2.shipping_lines → o1.tags = o2.tags →
        o1.shipping_address = o2.shipping_address → o1.billing_address = o2.billing_address →
        pipelineClassify o1 = pipelineClassify o2) := by
  constructor
  · intro o
    unfold determineDeliveryMethod
    rcases hm : methodRule o.deliveryMethod with _ | r
    · rcases ht : tagsRule o.tags with _ | r
      · rcases hs : shippingLineRule o.shipping_lines with _ | r
        · exact addressRule_out o.shipping_address o.billing_address
        · exact shippingLineRule_out hs
      · exact tagsRule_out ht
    · exact methodRule_out hm
  · intro o1 o2 hsl htg hsa hba
    cases o1
    cases o2
    simp only at hsl htg hsa hba
    subst hsl htg hsa hba
    rfl

/-- C5 witness: two orders that agree on shipping lines, tags, and both
addresses but differ elsewhere classify identically, and the classifier
answers one of the two labels. -/
theorem classifier_total_deterministic_witness :
    pipelineClassify
      { id := "1", orderNumber := "1001", name := none, deliveryMethod := none,
        tags := ["vip"], shipping_lines := [{ title := "Express Delivery", code := none }],
        shipping_address := none, billing_address := none,
        customer := { name := "A", phone := none, address := none },
        fulfillmentStatus := "unfulfilled" }
    = pipelineClassify
      { id := "2", orderNumber := "1002", name := some "#1002", deliveryMethod := some "x",
        tags := ["vip"], shipping_lines := [{ title := "Express Delivery", code := none }],
        shipping_address := none, billing_address := none,
        customer := { name := "B", phone := some "0400", address := none },
        fulfillmentStatus := "partial" }
    ∧ (determineDeliveryMethod
        { id := "1", orderNumber := "1001", name := none, deliveryMethod := none,
          tags := ["vip"], shipping_lines := [{ title := "Express Delivery", code := none }],
          shipping_address := none, billing_address := none,
          customer := { name := "A", phone := none, address := none },
          fulfillmentStatus := "unfulfilled" } = "Pickup"
      ∨ determineDeliveryMethod
        { id := "1", orderNumber := "1001", name := none, deliveryMethod := none,
          tags := ["vip"], shipping_lines := [{ title := "Express Delivery", code := none }],
          shipping_address := none, billing_address := none,
          customer := { name := "A", phone := none, address := none },
          fulfillmentStatus := "unfulfilled" } = "Pickup"
      ∨ determineDeliveryMethod
        { id := "1", orderNumber := "1001", name := none, deliveryMethod := none,
          tags := ["vip"], shipping_lines := [{ title := "Express Delivery", code := none }],
          shipping_address := none, billing_address := none,
          customer := { name := "A", phone := none, address := none },
          fulfillmentStatus := "unfulfilled" } = "Home Delivery") :=
  ⟨classifier_total_deterministic.2 _ _ rfl rfl rfl rfl,
   Or.imp id Or.inr (classifier_total_deterministic.1 _)⟩

/-- C6: an order whose deliveryMethod, tags, and shipping lines are all
inconclusive and whose shipping address is present and identical to its
present billing address does not match the materially-different rule nor
either only-one-address rule, and falls to the final fallback Pickup. -/
theorem classifier_identical_addresses (o : RawOrder) (a : Addr)
    (hm : methodRule o.deliveryMethod = none)
    (ht : tagsRule o.tags = none)
    (hs : shippingLineRule o.shipping_lines = none)
    (hsa : o.shipping_address = some a)
    (hba : o.billing_address = some a)
    (hv : hasValidAddr (some a) = true) :
    hasValidAddr o.shipping_address = true ∧ hasValidAddr o.billing_address = true ∧
    sameAddrOpt o.shipping_address o.billing_address = true ∧
    determineDeliveryMethod o = "Pickup" := by
  refine ⟨by rw [hsa]; exact hv, by rw [hba]; exact hv, by rw [hsa, hba]; simp [sameAddrOpt], ?_⟩
  unfold determineDeliveryMethod
  rw [hm, ht, hs, hsa, hba]
  simp [addressRule, sameAddrOpt, hv]

/-- C6 witness: a concrete order with the address 12 Farm Rd, Newcastle on
both sides and no other signals classifies as Pickup through the final
fallback. -/
theorem classifier_identical_addresses_witness :
    hasValidAddr (some farmRdAddr) = true ∧
    sameAddrOpt (some farmRdAddr) (some farmRdAddr) = true ∧
    determineDeliveryMethod
      { id := "1", orderNumber := "1001", name := none, deliveryMethod := none,
        tags := [], shipping_lines := [],
        shipping_address := some farmRdAddr, billing_address := some farmRdAddr,
        customer := { name := "A", phone := none, address := none },
        fulfillmentStatus := "unfulfilled" } = "Pickup" := by
  have h := classifier_identical_addresses
    { id := "1", orderNumber := "1001", name := none, deliveryMethod := none,
      tags := [], shipping_lines := [],
      shipping_address := some farmRdAddr, billing_address := some farmRdAddr,
      customer := { name := "A", phone := none, address := none },
      fulfillmentStatus := "unfulfilled" } farmRdAddr
    rfl rfl rfl rfl rfl (by decide)
  exact ⟨by decide, h.2.2⟩

/-- C7 (amended): when the deliveryMethod rule is inconclusive and the
order has tags, the classifier scans the lowercased comma-joined tag
string, pickup keywords (pickup, collection, market) first and the
delivery keywords delivery and shipping second — post and courier are not
consulted at this rule — with the first matching group winning. -/
theorem classifier_tag_scan (o : RawOrder)
    (hm : methodRule o.deliveryMethod = none)
    (ht : o.tags.length > 0) :
    ((strIncludes (lowerStr (joinComma o.tags)) "pickup"
      || strIncludes (lowerStr (joinComma o.tags)) "collection"
      || strIncludes (lowerStr (joinComma o.tags)) "market") = true →
        determineDeliveryMethod o = "Pickup")
    ∧ ((strIncludes (lowerStr (joinComma o.tags)) "pickup"
      || strIncludes (lowerStr (joinComma o.tags)) "collection"
      || strIncludes (lowerStr (joinComma o.tags)) "market") = false →
      (strIncludes (lowerStr (joinComma o.tags)) "delivery"
        || strIncludes (lowerStr (joinComma o.tags)) "shipping") = true →
        determineDeliveryMethod o = "Home Delivery") := by
  constructor
  · intro hp
    unfold determineDeliveryMethod
    rw [hm]
    have : tagsRule o.tags = some "Pickup" := by
      simp only [tagsRule, ht, if_true]
      simp only [Bool.or_eq_true] at hp
      simp [hp]
    rw [this]
  · intro hp hd
    unfold determineDeliveryMethod
    rw [hm]
    have : tagsRule o.tags = some "Home Delivery" := by
      simp only [tagsRule, ht, if_true]
      simp only [Bool.or_eq_false_iff] at hp
      simp only [Bool.or_eq_true] at hd
      simp [hp.1, hp.2, hd]
    rw [this]

/-- C7 witness: an order tagged "Shipping Saturday" (and nothing else
conclusive) classifies as Home Delivery through the tag rule. -/
theorem classifier_tag_scan_witness :
    determineDeliveryMethod
      { id := "1", orderNumber := "1001", name := none, deliveryMethod := none,
        tags := ["Shipping Saturday"], shipping_lines := [],
        shipping_address := none, billing_address := none,
        customer := { name := "A", phone := none, address := none },
        fulfillmentStatus := "unfulfilled" } = "Home Delivery" :=
  (classifier_tag_scan
    { id := "1", orderNumber := "1001", name := none, deliveryMethod := none,
      tags := ["Shipping Saturday"], shipping_lines := [],
      shipping_address := none, billing_address := none,
      customer := { name := "A", phone := none, address := none },
      fulfillmentStatus := "unfulfilled" } rfl (by decide)).2 (by decide) (by decide)

/-- A concrete order whose only signal is the tag "courier". -/
def courierTagOrder : RawOrder :=
  { id := "1", orderNumber := "1001", name := none, deliveryMethod := none,
    tags := ["courier"], shipping_lines := [],
    shipping_address := none, billing_address := none,
    customer := { name := "A", phone := none, address := none },
    fulfillmentStatus := "unfulfilled" }

/-- C7 counterexample: the claim asserts that a tag containing courier
(with no earlier match) classifies the order as Home Delivery, but the tag
rule of the code checks only delivery and shipping, so the order falls
through every rule and classifies as Pickup. -/
theorem classifier_tag_courier_cex :
    strIncludes (lowerStr (joinComma courierTagOrder.tags)) "courier" = true ∧
    determineDeliveryMethod courierTagOrder = "Pickup" ∧
    determineDeliveryMethod courierTagOrder ≠ "Home Delivery" := by
  refine ⟨by decide, by decide, by decide⟩

/-- In every result of `optimizeDeliveryRoute` — every early return, the
failure result, and the success path — the packing order is the reverse of
the optimized route. -/
theorem packingOrder_eq_reverse (k : Bool) (orders : List Order) (resp : Option SolverRoute) :
    (optimizeDeliveryRoute k orders resp).packingOrder
      = (optimizeDeliveryRoute k orders resp).optimizedRoute.reverse := by
  simp only [optimizeDeliveryRoute]
  repeat' split
  all_goals rfl

/-- C1: for every successful optimization over a non-empty job set, the
packing order is the exact reverse of the optimized route: equal length,
pointwise `packingOrder[i] = optimizedRoute[n-1-i]`, and reversing the
packing order yields the optimized route back. -/
theorem route_packing_reverse (k : Bool) (orders : List Order) (resp : Option SolverRoute)
    (hs : (optimizeDeliveryRoute k orders resp).success = true)
    (hj : mkJobs orders ≠ []) :
    (optimizeDeliveryRoute k orders resp).packingOrder
      = (optimizeDeliveryRoute k orders resp).optimizedRoute.reverse
    ∧ (optimizeDeliveryRoute k orders resp).packingOrder.length
      = (optimizeDeliveryRoute k orders resp).optimizedRoute.length
    ∧ (∀ i, i < (optimizeDeliveryRoute k orders resp).packingOrder.length →
        (optimizeDeliveryRoute k orders resp).packingOrder[i]?
          = (optimizeDeliveryRoute k orders resp).optimizedRoute[
              (optimizeDeliveryRoute k orders resp).optimizedRoute.length - 1 - i]?)
    ∧ (optimizeDeliveryRoute k orders resp).packingOrder.reverse
      = (optimizeDeliveryRoute k orders resp).optimizedRoute := by
  have hrev := packingOrder_eq_reverse k orders resp
  refine ⟨hrev, by rw [hrev]; exact List.length_reverse _, ?_, by rw [hrev]; exact List.reverse_reverse _⟩
  intro i hi
  rw [hrev] at hi ⊢
  rw [List.length_reverse] at hi
  exact List.getElem?_reverse hi

/-- A concrete geocoded address in Maitland. -/
def maitlandAddr : Addr :=
  { address1 := some "1 High St", city := some "Maitland", province := none,
    longitude := some 151, latitude := some (-32) }

/-- A concrete geocoded address in Newcastle. -/
def newcastleAddr : Addr :=
  { address1 := some "2 Low St", city := some "Newcastle", province := none,
    longitude := some 152, latitude := some (-33) }

/-- A concrete geocoded delivery order with id 7. -/
def sampleOrder7 : Order :=
  { id := "7", orderNumber := "1007", name := some "#1007",
    deliveryType := "delivery", deliveryMethod := "Home Delivery", «section» := "freezer",
    customer := { name := "Ann Smith", phone := some "0400000001",
                  address := some maitlandAddr },
    hasAddress := true }

/-- A second concrete geocoded delivery order with id 8. -/
def sampleOrder8 : Order :=
  { id := "8", orderNumber := "1008", name := some "#1008",
    deliveryType := "delivery", deliveryMethod := "Home Delivery", «section» := "freezer",
    customer := { name := "Bob Jones", phone := none,
                  address := some newcastleAddr },
    hasAddress := true }

/-- A solver response visiting job 8 first and job 7 second. -/
def sampleRoute87 : SolverRoute :=
  { steps := [ { type := "start", id := 0, arrival := 0 },
               { type := "job", id := 8, arrival := 600 },
               { type := "job", id := 7, arrival := 1500 },
               { type := "end", id := 0, arrival := 2400 } ],
    distance := 12000, duration := 2400 }

/-- C1 witness: on a successful two-stop optimization the packing order is
the reverse of the optimized route. -/
theorem route_packing_reverse_witness :
    (optimizeDeliveryRoute true [sampleOrder7, sampleOrder8] (some sampleRoute87)).success = true
    ∧ mkJobs [sampleOrder7, sampleOrder8] ≠ []
    ∧ (optimizeDeliveryRoute true [sampleOrder7, sampleOrder8] (some sampleRoute87)).packingOrder
      = (optimizeDeliveryRoute true [sampleOrder7, sampleOrder8]
          (some sampleRoute87)).optimizedRoute.reverse :=
  ⟨by decide, by decide,
   (route_packing_reverse true [sampleOrder7, sampleOrder8] (some sampleRoute87)
     (by decide) (by decide)).1⟩

/-- A stop builds exactly when some submitted job carries the step id. -/
theorem buildStop_isSome (orders : List Order) (jobs : List Job) (s : RouteStep) :
    (buildStop orders jobs s).isSome = (jobs.find? (fun j => j.id == s.id)).isSome := by
  unfold buildStop
  cases jobs.find? (fun j => j.id == s.id) <;> rfl

/-- The whole step list builds exactly when every step id has a submitted
job. -/
theorem buildStops_isSome (orders : List Order) (jobs : List Job) (steps : List RouteStep) :
    (buildStops orders jobs steps).isSome
      = steps.all (fun s => (jobs.find? (fun j => j.id == s.id)).isSome) := by
  induction steps with
  | nil => rfl
  | cons s rest ih =>
    simp only [buildStops, List.all_cons, ← ih, ← buildStop_isSome orders jobs s]
    cases buildStop orders jobs s <;> cases buildStops orders jobs rest <;> rfl

/-- Successful stop construction preserves the solver arrival order
pointwise and attaches exactly the first order whose parsed id equals the
step id. -/
theorem buildStops_maps (orders : List Order) (jobs : List Job) :
    ∀ (steps : List RouteStep) (stops : List Stop),
      buildStops orders jobs steps = some stops →
      stops.map (fun t => t.arrivalTime) = steps.map (fun s => s.arrival)
      ∧ stops.map (fun t => t.orderData)
          = steps.map (fun s => findOriginalOrder orders s.id) := by
  intro steps
  induction steps with
  | nil =>
    intro stops h
    simp only [buildStops] at h
    cases h
    exact ⟨rfl, rfl⟩
  | cons s rest ih =>
    intro stops h
    cases h1 : buildStop orders jobs s with
    | none => rw [buildStops, h1] at h; cases h
    | some st =>
      cases h2 : buildStops orders jobs rest with
      | none => rw [buildStops, h1, h2] at h; cases h
      | some sts =>
        rw [buildStops, h1, h2] at h
        cases h
        have hst : st.arrivalTime = s.arrival ∧ st.orderData = findOriginalOrder orders s.id := by
          unfold buildStop at h1
          cases h3 : jobs.find? (fun j => j.id == s.id) with
          | none => rw [h3] at h1; cases h1
          | some j =>
            rw [h3] at h1
            cases h1
            exact ⟨rfl, rfl⟩
        have hrest := ih sts h2
        simp [List.map_cons, hst.1, hst.2, hrest.1, hrest.2]

/-- C2 (amended): over a non-empty prepared job set, the component keeps
exactly the job-type steps of the solver response in arrival order; the
call fails (the thrown lookup error lands in the catch block) precisely
when some returned job id matches no submitted job; and on success each
stop carries the first submitted order whose parsed id equals the step id
— a step id matching a job but zero (or several) orders silently yields a
stop with missing (or the first matching) order data instead of a loud
failure. -/
theorem route_join_props (orders : List Order) (route : SolverRoute)
    (hj : mkJobs orders ≠ []) :
    ((optimizeDeliveryRoute true orders (some route)).success = true
      ↔ (route.steps.filter (fun s => s.type == "job")).all
          (fun s => ((mkJobs orders).find? (fun j => j.id == s.id)).isSome) = true)
    ∧ ((optimizeDeliveryRoute true orders (some route)).success = true →
        (optimizeDeliveryRoute true orders (some route)).optimizedRoute.map
            (fun t => t.arrivalTime)
          = (route.steps.filter (fun s => s.type == "job")).map (fun s => s.arrival)
        ∧ (optimizeDeliveryRoute true orders (some route)).optimizedRoute.map
            (fun t => t.orderData)
          = (route.steps.filter (fun s => s.type == "job")).map
              (fun s => findOriginalOrder orders s.id)) := by
  have hlen : ((mkJobs orders).length == 0) = false := by
    simp only [beq_eq_false_iff_ne, ne_eq, List.length_eq_zero]
    exact hj
  have hiff := buildStops_isSome orders (mkJobs orders)
    (route.steps.filter (fun s => s.type == "job"))
  cases hbs : buildStops orders (mkJobs orders)
      (route.steps.filter (fun s => s.type == "job")) with
  | none =>
    rw [hbs] at hiff
    constructor
    · simp only [optimizeDeliveryRoute, Bool.not_true, Bool.false_eq_true, if_false,
        hlen, hbs]
      simp [failureResult, ← hiff]
    · intro hsucc
      exfalso
      simp only [optimizeDeliveryRoute, Bool.not_true, Bool.false_eq_true, if_false,
        hlen, hbs] at hsucc
      simp [failureResult] at hsucc
  | some stops =>
    rw [hbs] at hiff
    have hmaps := buildStops_maps orders (mkJobs orders)
      (route.steps.filter (fun s => s.type == "job")) stops hbs
    constructor
    · simp only [optimizeDeliveryRoute, Bool.not_true, Bool.false_eq_true, if_false,
        hlen, hbs]
      simp [← hiff]
    · intro _
      simp only [optimizeDeliveryRoute, Bool.not_true, Bool.false_eq_true, if_false,
        hlen, hbs]
      exact hmaps

/-- C2 witness: on the concrete two-stop response the optimized route
lists the solver arrivals in order. -/
theorem route_join_props_witness :
    (optimizeDeliveryRoute true [sampleOrder7, sampleOrder8]
        (some sampleRoute87)).optimizedRoute.map (fun t => t.arrivalTime)
      = (sampleRoute87.steps.filter (fun s => s.type == "job")).map (fun s => s.arrival) :=
  ((route_join_props [sampleOrder7, sampleOrder8] sampleRoute87 (by decide)).2 (by decide)).1

/-- A delivery order whose id does not parse as an integer, so its job id
falls back to index + 1. -/
def cexOrderAbc : Order :=
  { id := "abc", orderNumber := "1009", name := none,
    deliveryType := "delivery", deliveryMethod := "Home Delivery", «section» := "freezer",
    customer := { name := "Cara Voss", phone := none,
                  address := some maitlandAddr },
    hasAddress := true }

/-- A solver response whose only job step carries the fallback id 1. -/
def cexRouteJob1 : SolverRoute :=
  { steps := [ { type := "job", id := 1, arrival := 100 } ], distance := 5, duration := 9 }

/-- C2 counterexample: the returned job id 1 matches the submitted job
(via the index fallback) but matches no submitted order, and the component
reports success while emitting a stop whose order data is missing —
it does not fail loudly. -/
theorem route_join_silent_cex :
    (optimizeDeliveryRoute true [cexOrderAbc] (some cexRouteJob1)).success = true
    ∧ (optimizeDeliveryRoute true [cexOrderAbc] (some cexRouteJob1)).optimizedRoute.map
        (fun t => t.orderData) = [none]
    ∧ findOriginalOrder [cexOrderAbc] 1 = none := by
  refine ⟨by decide, by decide, by decide⟩

/-- An order is kept by the geocoding loop iff its address is present and
the geocoder returns coordinates that are both truthy. -/
def geocodeHit (g : Addr → Option GeoResult) (o : Order) : Bool :=
  match o.customer.address with
  | none => false
  | some a =>
    match g a with
    | some c => c.longitude ≠ 0 && c.latitude ≠ 0
    | none => false

/-- The coordinate rewrite applied to a kept order. -/
def geocodeUpd (g : Addr → Option GeoResult) (o : Order) : Order :=
  match o.customer.address with
  | none => o
  | some a =>
    match g a with
    | some c => withCoords o a c
    | none => o

/-- The geocoding loop keeps exactly the hit orders, each rewritten with
its coordinates, in their incoming order. -/
theorem geocodeBatch_eq (g : Addr → Option GeoResult) :
    ∀ l : List Order, geocodeBatch g l = (l.filter (geocodeHit g)).map (geocodeUpd g) := by
  intro l
  induction l with
  | nil => rfl
  | cons o rest ih =>
    cases ha : o.customer.address with
    | none => simp [geocodeBatch, List.filter_cons, geocodeHit, ha, ih]
    | some a =>
      cases hg : g a with
      | none => simp [geocodeBatch, List.filter_cons, geocodeHit, ha, hg, ih]
      | some c =>
        by_cases hc : (¬c.longitude = 0 ∧ ¬c.latitude = 0)
        · simp [geocodeBatch, List.filter_cons, geocodeHit, geocodeUpd, ha, hg, hc.1, hc.2, ih]
        · simp [geocodeBatch, List.filter_cons, geocodeHit, ha, hg, hc, ih]

/-- A delivery order rewritten with truthy coordinates is job-eligible. -/
theorem jobPass_geocodeUpd (g : Addr → Option GeoResult) (o : Order)
    (hd : rawDeliveryFilter o = true) (hh : geocodeHit g o = true) :
    jobPass (geocodeUpd g o) = true := by
  simp only [rawDeliveryFilter, Bool.and_eq_true] at hd
  cases ha : o.customer.address with
  | none => simp [geocodeHit, ha] at hh
  | some a =>
    cases hg : g a with
    | none => simp [geocodeHit, ha, hg] at hh
    | some c =>
      simp only [geocodeHit, ha, hg, Bool.and_eq_true, decide_eq_true_eq] at hh
      simp [geocodeUpd, ha, hg, withCoords, jobPass, jsTruthyNum, hd.1, hh.1, hh.2]

/-- When every order passes the job filter, job preparation is one-to-one. -/
theorem mkJobs_length_of_pass (l : List Order) (h : ∀ o ∈ l, jobPass o = true) :
    (mkJobs l).length = l.length := by
  unfold mkJobs
  rw [List.filter_eq_self.mpr h, List.length_map, List.enum_length]

/-- C4 (amended): for every batch submitted to the optimize-route handler,
the geocoding loop runs per order without aborting: exactly the delivery
orders whose geocode returns coordinates that are both truthy survive, and
each surviving order yields exactly one solver job — so orders whose
resolution fails (the resolver returns null) are excluded, as are orders
geocoding to a zero coordinate, which JavaScript truthiness also drops. -/
theorem geocode_failures_isolated (orders : List Order) (g : Addr → Option GeoResult) :
    (geocodeBatch g (orders.filter rawDeliveryFilter)).length
      = ((orders.filter rawDeliveryFilter).filter (geocodeHit g)).length
    ∧ (mkJobs (geocodeBatch g (orders.filter rawDeliveryFilter))).length
      = ((orders.filter rawDeliveryFilter).filter (geocodeHit g)).length := by
  have hb := geocodeBatch_eq g (orders.filter rawDeliveryFilter)
  constructor
  · rw [hb, List.length_map]
  · rw [mkJobs_length_of_pass, hb, List.length_map]
    intro o ho
    rw [hb] at ho
    rcases List.mem_map.mp ho with ⟨p, hp, rfl⟩
    have hp2 := List.mem_filter.mp hp
    have hp3 := List.mem_filter.mp hp2.1
    exact jobPass_geocodeUpd g p hp3.2 hp2.2

/-- A geocoder that always answers with longitude 0 — a successful
resolution in the sense of the spec (not null). -/
def zeroLonGeocoder : Addr → Option GeoResult :=
  fun _ => some { longitude := 0, latitude := 1, confidence := 5 }

/-- C4 counterexample: one delivery order whose geocode succeeds (the
resolver does not return null) yields zero jobs, not one, because the
returned longitude 0 is falsy; the handler answers the could-not-geocode
message instead of routing the order. -/
theorem geocode_zero_longitude_cex :
    zeroLonGeocoder maitlandAddr ≠ none
    ∧ ([sampleOrder7].filter rawDeliveryFilter).length = 1
    ∧ (mkJobs (geocodeBatch zeroLonGeocoder ([sampleOrder7].filter rawDeliveryFilter))).length = 0
    ∧ (optimizeRouteHandler [sampleOrder7] zeroLonGeocoder true none).message
        = some "No delivery addresses could be geocoded. Check addresses are valid." := by
  refine ⟨by decide, by decide, by decide, by decide⟩

/-- C3 (amended): the scanned or typed code is first matched exactly
against order number, stringified id, and display name; when there is no
exact match the lookup falls back to substring containment and returns the
first containing order in list order — even when several orders contain
the code — reporting not-found only when no order matches at all. -/
theorem findOrder_lookup_props (allOrders : List Order) (code : String) :
    (∀ o, allOrders.find? (exactMatch code) = some o →
      findOrderByNumber allOrders code = some o)
    ∧ (allOrders.find? (exactMatch code) = none →
        findOrderByNumber allOrders code = allOrders.find? (substrMatch code))
    ∧ ((∀ o ∈ allOrders, exactMatch code o = false) →
        2 ≤ (allOrders.filter (substrMatch code)).length →
        (findOrderByNumber allOrders code).isSome = true) := by
  refine ⟨?_, ?_, ?_⟩
  · intro o h
    unfold findOrderByNumber
    rw [h]
  · intro h
    unfold findOrderByNumber
    rw [h]
  · intro hex hcnt
    have hnone : allOrders.find? (exactMatch code) = none := by
      apply List.find?_eq_none.mpr
      intro x hx
      simp [hex x hx]
    cases hf : allOrders.find? (substrMatch code) with
    | none =>
      exfalso
      have hall := List.find?_eq_none.mp hf
      have : allOrders.filter (substrMatch code) = [] := by
        rw [List.filter_eq_nil_iff]
        exact hall
      rw [this] at hcnt
      simp at hcnt
    | some o =>
      unfold findOrderByNumber
      rw [hnone, hf]
      rfl

/-- C3 witness: the code 1007 matches order 1007 exactly and loads it;
the code 100, with orders 1007 and 1008 present and no exact match, still
resolves (to the first substring candidate) rather than to not-found. -/
theorem findOrder_lookup_props_witness :
    findOrderByNumber [sampleOrder7, sampleOrder8] "1007" = some sampleOrder7
    ∧ findOrderByNumber [sampleOrder7, sampleOrder8] "100"
        = [sampleOrder7, sampleOrder8].find? (substrMatch "100")
    ∧ (findOrderByNumber [sampleOrder7, sampleOrder8] "100").isSome = true :=
  ⟨(findOrder_lookup_props [sampleOrder7, sampleOrder8] "1007").1 sampleOrder7 (by decide),
   (findOrder_lookup_props [sampleOrder7, sampleOrder8] "100").2.1 (by decide),
   (findOrder_lookup_props [sampleOrder7, sampleOrder8] "100").2.2 (by decide) (by decide)⟩

/-- C3 counterexample: with orders 1007 and 1008 present, the code 100 has
no exact match and two substring candidates, yet the lookup selects order
1007 — the first candidate — instead of reporting not-found. -/
theorem findOrder_ambiguous_cex :
    exactMatch "100" sampleOrder7 = false
    ∧ exactMatch "100" sampleOrder8 = false
    ∧ substrMatch "100" sampleOrder7 = true
    ∧ substrMatch "100" sampleOrder8 = true
    ∧ findOrderByNumber [sampleOrder7, sampleOrder8] "100" = some sampleOrder7 := by
  refine ⟨by decide, by decide, by decide, by decide, by decide⟩

/-- Deleting a key that is not in the table is a no-op. -/
theorem filter_ne_of_lookup_none (m : List (String × LoadEntry)) (k : String)
    (h : lookupLoaded m k = none) : m.filter (fun p => p.1 ≠ k) = m := by
  apply List.filter_eq_self.mpr
  intro p hp
  have hfind : m.find? (fun p => p.1 == k) = none := by
    unfold lookupLoaded at h
    cases hf : m.find? (fun p => p.1 == k) with
    | none => rfl
    | some q => rw [hf] at h; cases h
  have := List.find?_eq_none.mp hfind p hp
  simpa using this

/-- A freshly inserted entry is found. -/
theorem lookupLoaded_cons_self (m : List (String × LoadEntry)) (k : String) (e : LoadEntry) :
    lookupLoaded ((k, e) :: m) k = some e := by
  simp [lookupLoaded, List.find?]

/-- After deleting a key the lookup misses. -/
theorem lookupLoaded_filter_ne (m : List (String × LoadEntry)) (k : String) :
    lookupLoaded (m.filter (fun p => p.1 ≠ k)) k = none := by
  unfold lookupLoaded
  have : (m.filter (fun p => p.1 ≠ k)).find? (fun p => p.1 == k) = none := by
    apply List.find?_eq_none.mpr
    intro p hp
    have := (List.mem_filter.mp hp).2
    simpa using this
  rw [this]
  rfl

/-- C8 (amended): per order the loaded state is a toggle.  The
NotLoaded-to-Loaded transition inserts an entry carrying the action
timestamp and the order section; the Loaded-to-NotLoaded transition
removes the entry entirely; and toggling twice from NotLoaded returns the
loaded-state table — and the whole tracker state — exactly to its original
value.  (Toggling twice from Loaded restores the loaded status but the
re-created entry carries the fresh timestamp, so the table itself is not
restored; see the counterexample.) -/
theorem toggle_loaded_props (st : TrackerState) (oid : String) (t1 : Nat)
    (r : TrackResponse) (hr : r.success = true) (order : Order)
    (hfind : st.allOrders.find? (fun o => o.id == oid) = some order) :
    (lookupLoaded st.loadedOrders oid = none →
      lookupLoaded (toggleOrderLoaded st oid t1 (some r)).loadedOrders oid
        = some { timestamp := t1, «section» := order.«section» }
      ∧ ∀ t2, toggleOrderLoaded (toggleOrderLoaded st oid t1 (some r)) oid t2 (some r) = st)
    ∧ (∀ e, lookupLoaded st.loadedOrders oid = some e →
        lookupLoaded (toggleOrderLoaded st oid t1 (some r)).loadedOrders oid = none) := by
  constructor
  · intro hload
    have h1 : toggleOrderLoaded st oid t1 (some r)
        = { st with loadedOrders :=
            (oid, { timestamp := t1, «section» := order.«section» }) :: st.loadedOrders } := by
      unfold toggleOrderLoaded
      rw [hfind]
      simp [hr, hload]
    constructor
    · rw [h1]
      exact lookupLoaded_cons_self _ _ _
    · intro t2
      rw [h1]
      unfold toggleOrderLoaded
      rw [show ({ st with loadedOrders :=
            (oid, { timestamp := t1, «section» := order.«section» }) :: st.loadedOrders }
          : TrackerState).allOrders = st.allOrders from rfl, hfind]
      simp only [lookupLoaded_cons_self, Option.isSome_some, if_true, hr]
      have h2 : ((oid, ({ timestamp := t1, «section» := order.«section» } : LoadEntry))
          :: st.loadedOrders).filter (fun p => p.1 ≠ oid) = st.loadedOrders := by
        rw [List.filter_cons, if_neg (by simp)]
        exact filter_ne_of_lookup_none st.loadedOrders oid hload
      rw [h2]
  · intro e hload
    have h1 : toggleOrderLoaded st oid t1 (some r)
        = { st with loadedOrders := st.loadedOrders.filter (fun p => p.1 ≠ oid) } := by
      unfold toggleOrderLoaded
      rw [hfind]
      simp [hr, hload]
    rw [h1]
    exact lookupLoaded_filter_ne _ _

/-- A concrete pickup order with id 5 in the fridge section. -/
def trackOrder5 : Order :=
  { id := "5", orderNumber := "1005", name := none,
    deliveryType := "pickup", deliveryMethod := "Pickup", «section» := "fridge",
    customer := { name := "Eve Long", phone := none, address := none },
    hasAddress := false }

/-- A confirming track-loading response. -/
def okResp : TrackResponse := { success := true, error := none }

/-- A rejecting track-loading response. -/
def failResp : TrackResponse := { success := false, error := some "Order number and section are required" }

/-- A tracker state in which order 5 is already loaded with timestamp 0. -/
def trackerSt0 : TrackerState :=
  { allOrders := [trackOrder5],
    loadedOrders := [("5", { timestamp := 0, «section» := "fridge" })] }

/-- C8 witness: toggling the not-yet-loaded order 5 records timestamp and
section, and toggling twice returns the state exactly. -/
theorem toggle_loaded_props_witness :
    lookupLoaded (toggleOrderLoaded { allOrders := [trackOrder5], loadedOrders := [] }
        "5" 7 (some okResp)).loadedOrders "5"
      = some { timestamp := 7, «section» := "fridge" }
    ∧ toggleOrderLoaded (toggleOrderLoaded { allOrders := [trackOrder5], loadedOrders := [] }
        "5" 7 (some okResp)) "5" 9 (some okResp)
      = { allOrders := [trackOrder5], loadedOrders := [] } := by
  have h := (toggle_loaded_props { allOrders := [trackOrder5], loadedOrders := [] }
    "5" 7 okResp rfl trackOrder5 (by decide)).1 rfl
  exact ⟨h.1, h.2 9⟩

/-- C8 counterexample: order 5 starts loaded with timestamp 0; toggling
twice (unload then re-load at time 1) leaves it loaded but with timestamp
1, so the loaded-state table is not returned to its original state. -/
theorem toggle_twice_timestamp_cex :
    (toggleOrderLoaded (toggleOrderLoaded trackerSt0 "5" 1 (some okResp))
        "5" 1 (some okResp)).loadedOrders
      = [("5", { timestamp := 1, «section» := "fridge" })]
    ∧ trackerSt0.loadedOrders = [("5", { timestamp := 0, «section» := "fridge" })]
    ∧ toggleOrderLoaded (toggleOrderLoaded trackerSt0 "5" 1 (some okResp)) "5" 1 (some okResp)
        ≠ trackerSt0 := by
  refine ⟨by decide, by decide, by decide⟩

/-- A single load/unload attempt never touches the order list. -/
theorem toggle_preserves_allOrders (st : TrackerState) (oid : String) (t : Nat)
    (resp : Option TrackResponse) :
    (toggleOrderLoaded st oid t resp).allOrders = st.allOrders := by
  unfold toggleOrderLoaded
  split
  · rfl
  · split
    · rfl
    · split
      · split <;> rfl
      · rfl

/-- Folding any action list leaves the order list untouched. -/
theorem applyActions_allOrders (acts : List (String × Nat × Option TrackResponse)) :
    ∀ st : TrackerState, (applyActions st acts).allOrders = st.allOrders := by
  induction acts with
  | nil => intro st; rfl
  | cons a rest ih =>
    intro st
    show (applyActions (toggleOrderLoaded st a.1 a.2.1 a.2.2) rest).allOrders = st.allOrders
    rw [ih, toggle_preserves_allOrders]

/-- C9: loading actions mutate only the loaded-state table.  Over every
sequence of load/unload attempts the classified order records are
unchanged, and every order still carries the section fixed at
classification time — fridge for pickups, freezer for deliveries. -/
theorem loading_actions_frame (raws : List RawOrder) (l : List (String × LoadEntry))
    (acts : List (String × Nat × Option TrackResponse)) :
    (applyActions { allOrders := raws.map categorizeOrder, loadedOrders := l } acts).allOrders
      = raws.map categorizeOrder
    ∧ ((applyActions { allOrders := raws.map categorizeOrder, loadedOrders := l }
          acts).allOrders.all
        (fun o => (o.deliveryType == "pickup" && o.«section» == "fridge")
          || (o.deliveryType == "delivery" && o.«section» == "freezer"))) = true := by
  have hall := applyActions_allOrders acts
    { allOrders := raws.map categorizeOrder, loadedOrders := l }
  refine ⟨hall, ?_⟩
  rw [hall]
  dsimp only
  apply List.all_eq_true.mpr
  intro o ho
  rcases List.mem_map.mp ho with ⟨r, hmem, rfl⟩
  unfold categorizeOrder
  split <;> rfl

/-- C10: a load/unload attempt whose backing track-loading request does
not confirm — the HTTP call fails outright, or the body reports success
false — leaves the loaded-state table (indeed the whole tracker state)
unchanged. -/
theorem toggle_unconfirmed_unchanged (st : TrackerState) (oid : String) (t : Nat)
    (resp : Option TrackResponse)
    (h : resp = none ∨ ∃ r, resp = some r ∧ r.success = false) :
    toggleOrderLoaded st oid t resp = st
    ∧ (toggleOrderLoaded st oid t resp).loadedOrders = st.loadedOrders := by
  have hst : toggleOrderLoaded st oid t resp = st := by
    rcases h with rfl | ⟨r, rfl, hr⟩
    · unfold toggleOrderLoaded
      split <;> rfl
    · unfold toggleOrderLoaded
      split
      · rfl
      · simp [hr]
  exact ⟨hst, by rw [hst]⟩

/-- C10 witness: a failed HTTP call and a success-false body both leave
the concrete loaded state of order 5 untouched. -/
theorem toggle_unconfirmed_unchanged_witness :
    toggleOrderLoaded trackerSt0 "5" 3 none = trackerSt0
    ∧ toggleOrderLoaded trackerSt0 "5" 3 (some failResp) = trackerSt0 :=
  ⟨(toggle_unconfirmed_unchanged trackerSt0 "5" 3 none (Or.inl rfl)).1,
   (toggle_unconfirmed_unchanged trackerSt0 "5" 3 (some failResp)
     (Or.inr ⟨failResp, rfl, rfl⟩)).1⟩
